import Mathlib

/-!
Shallow embedding of the Sony IMX294 V4L2 sensor driver (`imx294.c`):
the mode catalog, the exposure/timing arithmetic, the control handler
`imx294_set_ctrl`, the framing-limit computation, the media-bus format-code
lookup and the chip-identification step, together with theorems checking the
natural-language specification against this embedding.

Machine integers are modelled as `Nat` with explicit reduction modulo the
relevant power of two wherever the C code can overflow or truncate
(`u16`/`u24`/`u32`/`u64`); the kernel's `do_div(n, base)` divides a 64-bit
value by a **32-bit** divisor, so every divisor below is reduced mod `2^32`
first, and `clamp_t(uint32_t, v, lo, hi)` first casts all three operands to
`uint32_t` (a truncation, not a clamp) before comparing.
-/

namespace Imx294

/-- `2^16`, the modulus of a C `uint16_t`. -/
def U16 : Nat := 65536

/-- `2^24`: `imx294_write_reg_3byte` transmits only the low three bytes. -/
def U24 : Nat := 16777216

/-- `2^32`, the modulus of a C `uint32_t`. -/
def U32 : Nat := 4294967296

/-- `2^64`, the modulus of a C `uint64_t`. -/
def U64 : Nat := 18446744073709551616

/-- `a - b` on `uint64_t`: wrapping subtraction mod `2^64` (both operands are
first reduced mod `2^64`, as C does before subtracting). -/
def u64sub (a b : Nat) : Nat := (a % U64 + U64 - b % U64) % U64

/-! ### Register map constants (from the `#define` block of `imx294.c`) -/

/-- Chip-identity register address, shared with mode select (`0x3000`). -/
def IMX294_REG_CHIP_ID : Nat := 0x3000

/-- Expected chip-identity value. -/
def IMX294_CHIP_ID : Nat := 0x0000

/-- Vertical-period (VMAX) register address. -/
def IMX294_REG_VMAX : Nat := 0x30A9

/-- Largest VMAX counter value. -/
def IMX294_VMAX_MAX : Nat := 0xfffff

/-- Horizontal-period (HMAX) register address. -/
def IMX294_REG_HMAX : Nat := 0x30AC

/-- Largest HMAX counter value. -/
def IMX294_HMAX_MAX : Nat := 0xffff

/-- First mirrored horizontal counter register. -/
def IMX294_REG_HCOUNT1 : Nat := 0x3084

/-- Second mirrored horizontal counter register. -/
def IMX294_REG_HCOUNT2 : Nat := 0x3086

/-- Blanking-compensation register PSSLVS1. -/
def IMX294_REG_PSSLVS1 : Nat := 0x332C

/-- Blanking-compensation register PSSLVS2. -/
def IMX294_REG_PSSLVS2 : Nat := 0x334A

/-- Blanking-compensation register PSSLVS3. -/
def IMX294_REG_PSSLVS3 : Nat := 0x35B6

/-- Blanking-compensation register PSSLVS4 (the zero-clamped one). -/
def IMX294_REG_PSSLVS4 : Nat := 0x35B8

/-- Blanking-compensation register PSSLVS0. -/
def IMX294_REG_PSSLVS0 : Nat := 0x36BC

/-- Shutter (SHR) register address. -/
def IMX294_REG_SHR : Nat := 0x302C

/-- Analog-gain register address. -/
def IMX294_REG_ANALOG_GAIN : Nat := 0x300A

/-! ### Media-bus codes (values from `include/uapi/linux/media-bus-format.h`) -/

/-- Media-bus code `MEDIA_BUS_FMT_SRGGB12_1X12`. -/
def MEDIA_BUS_FMT_SRGGB12_1X12 : Nat := 0x3012

/-- Media-bus code `MEDIA_BUS_FMT_SGRBG12_1X12`. -/
def MEDIA_BUS_FMT_SGRBG12_1X12 : Nat := 0x3011

/-- Media-bus code `MEDIA_BUS_FMT_SGBRG12_1X12`. -/
def MEDIA_BUS_FMT_SGBRG12_1X12 : Nat := 0x3010

/-- Media-bus code `MEDIA_BUS_FMT_SBGGR12_1X12`. -/
def MEDIA_BUS_FMT_SBGGR12_1X12 : Nat := 0x3008

/-- The supported-codes table `codes[]` of `imx294.c`, in source order. -/
def codes : List Nat :=
  [MEDIA_BUS_FMT_SRGGB12_1X12,
   MEDIA_BUS_FMT_SGRBG12_1X12,
   MEDIA_BUS_FMT_SGBRG12_1X12,
   MEDIA_BUS_FMT_SBGGR12_1X12]

/-- `imx294_get_format_code`: linear search of `codes[]`; the C loop leaves
`i = codes.length` when no entry matches (`List.findIdx` has the same
behaviour) and then returns `codes[i]` — an access one past the end of the
array for unmatched codes, modelled here as `List.get?` returning `none`. -/
def imx294_get_format_code (code : Nat) : Option Nat :=
  codes.get? (codes.findIdx (fun c => c = code))

/-! ### Mode catalog -/

/-- Analog crop rectangle (`struct v4l2_rect`). -/
structure V4l2Rect where
  left : Nat
  top : Nat
  width : Nat
  height : Nat
deriving Repr, DecidableEq

/-- `struct imx294_mode` (the per-mode register list is static data the
claims do not touch and is omitted). -/
structure Imx294Mode where
  width : Nat
  height : Nat
  min_HMAX : Nat
  min_VMAX : Nat
  default_HMAX : Nat
  default_VMAX : Nat
  VMAX_scale : Nat
  min_SHR : Nat
  integration_offset : Nat
  crop : V4l2Rect
deriving Repr, DecidableEq

/-- The catalog `supported_modes_12bit[]`, in source order. -/
def supported_modes_12bit : List Imx294Mode :=
  [{ width := 4144, height := 2184, min_HMAX := 1122, min_VMAX := 1111,
     default_HMAX := 1200, default_VMAX := 2500, VMAX_scale := 2,
     min_SHR := 5, integration_offset := 256,
     crop := { left := 36, top := 20, width := 4096, height := 2160 } },
   { width := 4176, height := 2184, min_HMAX := 1192, min_VMAX := 1111,
     default_HMAX := 1200, default_VMAX := 2500, VMAX_scale := 2,
     min_SHR := 5, integration_offset := 361,
     crop := { left := 36, top := 20, width := 4096, height := 2160 } },
   { width := 3872, height := 2180, min_HMAX := 1055, min_VMAX := 1111,
     default_HMAX := 1200, default_VMAX := 2500, VMAX_scale := 2,
     min_SHR := 5, integration_offset := 256,
     crop := { left := 20, top := 20, width := 3840, height := 2160 } },
   { width := 3792, height := 2840, min_HMAX := 1024, min_VMAX := 1444,
     default_HMAX := 1875, default_VMAX := 1600, VMAX_scale := 2,
     min_SHR := 5, integration_offset := 551,
     crop := { left := 40, top := 24, width := 3704, height := 2778 } }]

/-- The first catalog entry (readout mode 1), the driver's default mode. -/
def mode0 : Imx294Mode :=
  { width := 4144, height := 2184, min_HMAX := 1122, min_VMAX := 1111,
    default_HMAX := 1200, default_VMAX := 2500, VMAX_scale := 2,
    min_SHR := 5, integration_offset := 256,
    crop := { left := 36, top := 20, width := 4096, height := 2160 } }

/-! ### Timing calculator -/

/-- `calculate_v4l2_cid_exposure(hmax, vmax, shr, svr, offset)` (all
parameters `u64`): `numerator = (vmax*(svr+1) - shr)*hmax + offset` in
wrapping `u64` arithmetic, `do_div(numerator, hmax)` (32-bit divisor), then
`clamp_t(uint32_t, numerator, 0, 0xFFFFFFFF)`, which casts the quotient to
`uint32_t` — i.e. reduces it mod `2^32`. -/
def calculate_v4l2_cid_exposure (hmax vmax shr svr offset : Nat) : Nat :=
  let diff := u64sub (vmax % U64 * ((svr + 1) % U64)) shr
  let numerator := (diff * (hmax % U64) + offset % U64) % U64
  numerator / (hmax % U32) % U32

/-- `calculate_min_max_v4l2_cid_exposure(hmax, vmax, min_shr, svr, offset)`:
`max_shr = min_t(uint64_t, (svr+1)*vmax - 4, 0xFFFF)` (wrapping `u64`
subtraction), then the pair
`(calculate_v4l2_cid_exposure at max_shr, calculate_v4l2_cid_exposure at min_shr)`. -/
def calculate_min_max_v4l2_cid_exposure (hmax vmax min_shr svr offset : Nat) :
    Nat × Nat :=
  let max_shr := min (u64sub ((svr + 1) % U64 * (vmax % U64)) 4) 0xFFFF
  (calculate_v4l2_cid_exposure hmax vmax max_shr svr offset,
   calculate_v4l2_cid_exposure hmax vmax min_shr svr offset)

/-- `calculate_shr(exposure, hmax, vmax, svr, offset)` (`exposure`, `hmax`,
`svr`, `offset` are `uint32_t`, `vmax` is `uint64_t`):
`temp = (uint64_t)exposure*hmax - offset` (wrapping `u64`),
`do_div(temp, hmax)` (32-bit divisor), then
`shr = (uint32_t)(vmax*(svr+1) - temp)` in wrapping `u64` arithmetic,
truncated to `uint32_t`. -/
def calculate_shr (exposure hmax vmax svr offset : Nat) : Nat :=
  let temp0 := u64sub (exposure % U32 * (hmax % U32)) (offset % U32)
  let temp := temp0 / (hmax % U32)
  u64sub (vmax % U64 * ((svr + 1) % U32)) temp % U32

/-! ### V4L2 integer control (external collaborator model) -/

/-- An integer V4L2 control: current value, range and default
(step is 1 for every control this driver re-ranges). -/
structure V4l2Ctrl where
  val : Nat
  minimum : Nat
  maximum : Nat
  default_value : Nat
deriving Repr, DecidableEq

/-- Modelled from the v4l2 control core (`__v4l2_ctrl_modify_range` on an
integer control with step 1): `check_range` rejects the update with
`-ERANGE` — leaving the control untouched — unless `lo ≤ hi` and the new
default lies inside the new range; on success the range and default are
replaced and the control's current value is clamped into the new range. -/
def v4l2_ctrl_modify_range (c : V4l2Ctrl) (lo hi de : Nat) : V4l2Ctrl :=
  if lo ≤ hi ∧ lo ≤ de ∧ de ≤ hi then
    { val := max lo (min c.val hi), minimum := lo, maximum := hi,
      default_value := de }
  else c

/-! ### Control state and the `imx294_set_ctrl` handler -/

/-- The driver state touched by `imx294_set_ctrl`: the active mode, the
`uint16_t HMAX` and `uint32_t VMAX` counters, and the exposure control. -/
structure Imx294State where
  mode : Imx294Mode
  HMAX : Nat
  VMAX : Nat
  exposure : V4l2Ctrl
deriving Repr, DecidableEq

/-- One register write issued by the driver: address, transfer width in
bytes, and the value actually transmitted (already truncated to that
width, as `imx294_write_reg_2byte`/`_3byte` do). -/
structure RegWrite where
  address : Nat
  width : Nat
  value : Nat
deriving Repr, DecidableEq

/-- The four control identifiers `imx294_set_ctrl` handles (any other id
falls into the `default:` branch, returns `-EINVAL` and is not modelled). -/
inductive CtrlId where
  | exposure
  | analogue_gain
  | vblank
  | hblank
deriving Repr, DecidableEq

/-- Result of one `imx294_set_ctrl` call: the new driver state, the register
writes issued, and the return value. -/
structure CtrlResult where
  st : Imx294State
  writes : List RegWrite
  ret : Int
deriving Repr, DecidableEq

/-- The VBLANK handler's vertical-period computation:
`vmax = ((u64)mode->height + ctrl->val)`, `do_div(vmax, mode->VMAX_scale)`
(32-bit divisor), stored into the `uint32_t` field `imx294->VMAX`. -/
def vblank_new_vmax (m : Imx294Mode) (x : Nat) : Nat :=
  (m.height + x) % U64 / (m.VMAX_scale % U32) % U32

/-- The `(min_exposure, max_exposure)` pair the VBLANK pre-step computes:
`calculate_min_max_v4l2_cid_exposure(imx294->HMAX, imx294->VMAX,
mode->min_SHR, 0, mode->integration_offset)` at the freshly stored `VMAX`. -/
def vblank_new_bounds (st : Imx294State) (x : Nat) : Nat × Nat :=
  calculate_min_max_v4l2_cid_exposure st.HMAX (vblank_new_vmax st.mode x)
    st.mode.min_SHR 0 st.mode.integration_offset

/-- The VBLANK pre-step of `imx294_set_ctrl`, executed before the power
check: store the new `VMAX` (`vblank_new_vmax`), recompute the exposure
bounds (`vblank_new_bounds`), clamp the local `current_exposure` with
`clamp_t(uint32_t, ...)` — that local is **uninitialized** in the C
source, its arbitrary value is the `uninit` parameter here — and call
`__v4l2_ctrl_modify_range(imx294->exposure, min, max, 1, current_exposure)`. -/
def vblank_update (st : Imx294State) (x uninit : Nat) : Imx294State :=
  let mm := vblank_new_bounds st x
  let current_exposure := min (max (uninit % U32) (mm.1 % U32)) (mm.2 % U32)
  { st with VMAX := vblank_new_vmax st.mode x,
            exposure := v4l2_ctrl_modify_range st.exposure mm.1 mm.2
              current_exposure }

/-- The register writes of the powered `V4L2_CID_VBLANK` arm: the 3-byte
`VMAX` write, then `vblk = imx294->VMAX - mode->min_VMAX` (wrapping `u64`
subtraction) written to PSSLVS1/2/3, PSSLVS4 zero-clamped at a margin of 5,
and PSSLVS0, in source order. -/
def vblank_reg_writes (vmax min_VMAX : Nat) : List RegWrite :=
  let vblk := u64sub vmax min_VMAX
  [⟨IMX294_REG_VMAX, 3, vmax % U24⟩,
   ⟨IMX294_REG_PSSLVS1, 2, vblk % U16⟩,
   ⟨IMX294_REG_PSSLVS2, 2, vblk % U16⟩,
   ⟨IMX294_REG_PSSLVS3, 2, vblk % U16⟩,
   ⟨IMX294_REG_PSSLVS4, 2, if vblk ≤ 5 then 0 else (vblk - 5) % U16⟩,
   ⟨IMX294_REG_PSSLVS0, 2, vblk % U16⟩]

/-- `imx294_set_ctrl(ctrl)` from `imx294.c`.

For `V4L2_CID_VBLANK` the handler first — before the power check — runs
`vblank_update` (see there).  `pm_runtime_get_if_in_use` then returns 0
while unpowered (`powered = false`), in which case the handler returns 0
with no register I/O.  While powered, the switch issues the per-control
register writes; the `V4L2_CID_VBLANK` arm recomputes
`tmp = (height + val)/VMAX_scale` and stores it to `VMAX` again (the same
value as the pre-step, folded into one assignment here), and the
`V4L2_CID_HBLANK` arm is the only place the `HMAX` field is assigned.  The
register transport is modelled as always succeeding, so `ret` is 0 on
every modelled path. -/
def imx294_set_ctrl (st : Imx294State) (id : CtrlId) (val : Nat)
    (uninit : Nat) (powered : Bool) : CtrlResult :=
  let m := st.mode
  let st1 := if id = CtrlId.vblank then vblank_update st val uninit else st
  if !powered then ⟨st1, [], 0⟩ else
  match id with
  | CtrlId.exposure =>
    let shr := calculate_shr val st1.HMAX st1.VMAX 0 m.integration_offset
    ⟨st1, [⟨IMX294_REG_SHR, 2, shr % U16⟩], 0⟩
  | CtrlId.analogue_gain =>
    ⟨st1, [⟨IMX294_REG_ANALOG_GAIN, 2, val % U16⟩], 0⟩
  | CtrlId.vblank =>
    ⟨st1, vblank_reg_writes st1.VMAX m.min_VMAX, 0⟩
  | CtrlId.hblank =>
    let pixel_rate := m.width % U64 * 72000000 % U64 / (m.min_HMAX % U32)
    let hmax := (m.width + val) % U32 * 72000000 % U64 / (pixel_rate % U32)
    ⟨{ st1 with HMAX := hmax % U16 },
     [⟨IMX294_REG_HMAX, 2, hmax % U16⟩,
      ⟨IMX294_REG_HCOUNT1, 2, hmax % U16⟩,
      ⟨IMX294_REG_HCOUNT2, 2, hmax % U16⟩],
     0⟩

/-- The driver state right after probe with the default mode: framing
limits set `VMAX`/`HMAX` to the mode defaults and the exposure control
carries its initial range `[52, 49865]` with default and value 1000. -/
def init_state : Imx294State :=
  { mode := mode0, HMAX := 1200, VMAX := 2500,
    exposure := { val := 1000, minimum := 52, maximum := 49865,
                  default_value := 1000 } }

/-! ### Framing limits (pixel rate) -/

/-- The pixel-rate computation of `imx294_set_framing_limits`:
`pixel_rate = (u64)mode->width * 72000000 * 2`, then
`do_div(pixel_rate, mode->min_HMAX)` (32-bit divisor). -/
def imx294_set_framing_limits_pixel_rate (m : Imx294Mode) : Nat :=
  m.width % U64 * 72000000 % U64 * 2 % U64 / (m.min_HMAX % U32)

/-- The publication of the pixel rate by `imx294_set_framing_limits`:
`__v4l2_ctrl_modify_range(imx294->pixel_rate, pr, pr, 1, pr)` applied to
the (read-only) pixel-rate control. -/
def imx294_set_framing_limits_publish (m : Imx294Mode) (c : V4l2Ctrl) :
    V4l2Ctrl :=
  let pr := imx294_set_framing_limits_pixel_rate m
  v4l2_ctrl_modify_range c pr pr pr

/-! ### Chip identification -/

/-- `imx294_identify_module(imx294, expected_id)`: reads one byte from
`IMX294_REG_CHIP_ID`; a failed read propagates the transport error, and on
a successful read the function logs "Device found" and returns 0 — the
value read is **never compared** with `expected_id`.  The outcome of the
register read is the `read_chip_id` argument. -/
def imx294_identify_module (read_chip_id : Except Int Nat)
    (expected_id : Nat) : Except Int Unit :=
  match read_chip_id with
  | Except.error e => Except.error e
  | Except.ok _ => Except.ok ()

end Imx294

/-! ### Helper lemmas -/

namespace Imx294

theorem calculate_v4l2_cid_exposure_lt_U32 (h v s svr off : Nat) :
    calculate_v4l2_cid_exposure h v s svr off < U32 := by
  unfold calculate_v4l2_cid_exposure
  exact Nat.mod_lt _ (by norm_num [U32])

/-- Under no-overflow side conditions, `calculate_v4l2_cid_exposure`
computes the spec's floor formula, reduced mod `2^32`. -/
theorem exposure_formula (h v s svr off : Nat) (hU : h < U32)
    (hsvr : svr + 1 < U64) (hv : v * (svr + 1) < U64) (hs : s ≤ v * (svr + 1))
    (hnum : (v * (svr + 1) - s) * h + off < U64) :
    calculate_v4l2_cid_exposure h v s svr off =
      ((v * (svr + 1) - s) * h + off) / h % U32 := by
  have hvU : v < U64 :=
    lt_of_le_of_lt (Nat.le_mul_of_pos_right v (Nat.succ_pos svr)) hv
  have hsU : s < U64 := lt_of_le_of_lt hs hv
  have hoffU : off < U64 := lt_of_le_of_lt (Nat.le_add_left off _) hnum
  have hhU : h < U64 := lt_trans hU (by norm_num [U32, U64])
  have hdiff : u64sub (v % U64 * ((svr + 1) % U64)) s = v * (svr + 1) - s := by
    unfold u64sub
    rw [Nat.mod_eq_of_lt hvU, Nat.mod_eq_of_lt hsvr, Nat.mod_eq_of_lt hv,
        Nat.mod_eq_of_lt hsU]
    unfold U64 at hv ⊢
    omega
  simp only [calculate_v4l2_cid_exposure]
  rw [hdiff, Nat.mod_eq_of_lt hhU, Nat.mod_eq_of_lt hoffU,
      Nat.mod_eq_of_lt hnum, Nat.mod_eq_of_lt hU]

end Imx294

namespace Imx294

/-- C1 counterexample: at hPeriod = 1, vPeriod = 2^33, shutterOffsetReg = 0,
svr = 0, integrationOffset = 0 the floor of the spec formula is 2^33; clamped
into the 32-bit unsigned range that would be 4294967295, but
`calculate_v4l2_cid_exposure` returns 0 — `clamp_t(uint32_t, ...)` truncates
the quotient to its low 32 bits instead of clamping. -/
theorem C1_counterexample :
    calculate_v4l2_cid_exposure 1 8589934592 0 0 0 = 0 ∧
    min (((8589934592 * (0 + 1) - 0) * 1 + 0) / 1) (U32 - 1) = 4294967295 ∧
    (0 : Nat) ≠ 4294967295 := by
  refine ⟨by decide, by decide, by decide⟩

/-- C1 (amended): for hPeriod > 0 (and below 2^32, the width of `do_div`'s
divisor) and inputs that do not overflow the 64-bit intermediates,
`calculate_v4l2_cid_exposure` returns
`floor(((vPeriod*(svr+1) - shutterOffsetReg)*hPeriod + integrationOffset) / hPeriod)`
reduced modulo 2^32 — truncated to the low 32 bits, not clamped. -/
theorem C1_amended (h v s svr off : Nat) (hh : 0 < h) (hU : h < U32)
    (hsvr : svr + 1 < U64) (hv : v * (svr + 1) < U64) (hs : s ≤ v * (svr + 1))
    (hnum : (v * (svr + 1) - s) * h + off < U64) :
    calculate_v4l2_cid_exposure h v s svr off =
      ((v * (svr + 1) - s) * h + off) / h % U32 :=
  exposure_formula h v s svr off hU hsvr hv hs hnum

/-- C1 witness: the amended theorem applied at the concrete input
hPeriod = 1200, vPeriod = 2500, shutterOffsetReg = 5, svr = 0,
integrationOffset = 256. -/
theorem C1_witness :
    calculate_v4l2_cid_exposure 1200 2500 5 0 256 =
      ((2500 * (0 + 1) - 5) * 1200 + 256) / 1200 % U32 :=
  C1_amended 1200 2500 5 0 256 (by decide) (by decide) (by decide) (by decide)
    (by decide) (by decide)

/-- C2: `calculate_min_max_v4l2_cid_exposure` computes
`maxShutterOffset = min(vPeriod*(svr+1) - 4, 65535)`, yields
`minExposure = calculate_v4l2_cid_exposure` at that maximal shutter offset
and `maxExposure = calculate_v4l2_cid_exposure` at the mode's minimal
shutter offset; at hPeriod = 1200, vPeriod = 2500, minShutterOffset = 5,
svr = 0, integrationOffset = 256 it returns (4, 2495). -/
theorem C2_exposure_bounds (h v s svr off : Nat)
    (hsvr : svr + 1 < U64) (hv4 : 4 ≤ v * (svr + 1)) (hv : v * (svr + 1) < U64) :
    calculate_min_max_v4l2_cid_exposure h v s svr off =
      (calculate_v4l2_cid_exposure h v (min (v * (svr + 1) - 4) 0xFFFF) svr off,
       calculate_v4l2_cid_exposure h v s svr off) ∧
    calculate_min_max_v4l2_cid_exposure 1200 2500 5 0 256 = (4, 2495) := by
  constructor
  · have hvU : v < U64 :=
      lt_of_le_of_lt (Nat.le_mul_of_pos_right v (Nat.succ_pos svr)) hv
    have hmax : u64sub ((svr + 1) % U64 * (v % U64)) 4 = v * (svr + 1) - 4 := by
      unfold u64sub
      rw [Nat.mod_eq_of_lt hsvr, Nat.mod_eq_of_lt hvU, Nat.mul_comm (svr + 1) v,
          Nat.mod_eq_of_lt hv]
      unfold U64 at hv ⊢
      omega
    unfold calculate_min_max_v4l2_cid_exposure
    rw [hmax]
  · decide

/-- C2 witness: the theorem applied at hPeriod = 1200, vPeriod = 2500,
minShutterOffset = 5, svr = 0, integrationOffset = 256. -/
theorem C2_witness :
    calculate_min_max_v4l2_cid_exposure 1200 2500 5 0 256 =
      (calculate_v4l2_cid_exposure 1200 2500
        (min (2500 * (0 + 1) - 4) 0xFFFF) 0 256,
       calculate_v4l2_cid_exposure 1200 2500 5 0 256) ∧
    calculate_min_max_v4l2_cid_exposure 1200 2500 5 0 256 = (4, 2495) :=
  C2_exposure_bounds 1200 2500 5 0 256 (by decide) (by decide) (by decide)

end Imx294

namespace Imx294

/-- With `svr = 0`, `offset < hPeriod` and no 64-bit overflow,
`calculate_v4l2_cid_exposure` is exact: it returns `vPeriod - shutterOffset`. -/
theorem exposure_exact (h v s off : Nat) (hh : 0 < h) (hU : h < U32)
    (hoff : off < h) (hs : s ≤ v) (hv : v < U32) :
    calculate_v4l2_cid_exposure h v s 0 off = v - s := by
  have hv64 : v < U64 := by unfold U64; unfold U32 at hv; omega
  have hh64 : h < U64 := by unfold U64; unfold U32 at hU; omega
  have hoff64 : off < U64 := lt_trans (lt_trans hoff hU) (by decide)
  have hnum : (v - s) * h + off < U64 := by
    have h1 : (v - s) * h ≤ 4294967295 * 4294967295 :=
      Nat.mul_le_mul (by unfold U32 at hv; omega) (by unfold U32 at hU; omega)
    unfold U64
    unfold U32 at hU
    omega
  have hdiff : u64sub (v % U64 * ((0 + 1) % U64)) s = v - s := by
    unfold u64sub
    have h1 : (0 + 1) % U64 = 1 := by unfold U64; omega
    rw [h1, Nat.mod_eq_of_lt hv64, Nat.mul_one, Nat.mod_eq_of_lt hv64,
        Nat.mod_eq_of_lt (lt_of_le_of_lt hs hv64)]
    unfold U64
    unfold U64 at hv64
    omega
  simp only [calculate_v4l2_cid_exposure]
  rw [hdiff, Nat.mod_eq_of_lt hh64, Nat.mod_eq_of_lt hoff64,
      Nat.mod_eq_of_lt hnum, Nat.mod_eq_of_lt hU]
  rw [Nat.mul_comm (v - s) h, Nat.mul_add_div hh, Nat.div_eq_of_lt hoff,
      Nat.add_zero]
  exact Nat.mod_eq_of_lt (lt_of_le_of_lt (Nat.sub_le v s) hv)

/-- Characterization of `calculate_shr` with `svr = 0` under no-overflow
side conditions: it computes `vPeriod - floor((exposure*hPeriod - offset)/hPeriod)`. -/
theorem shr_formula (e h v off : Nat) (hh : 0 < h) (hU : h < U32)
    (he32 : e < U32) (hoffU : off < U32) (hoffe : off ≤ e * h) (hv : v < U32)
    (htv : (e * h - off) / h ≤ v) :
    calculate_shr e h v 0 off = v - (e * h - off) / h := by
  have hv64 : v < U64 := by unfold U64; unfold U32 at hv; omega
  have hprodU : e * h < U64 := by
    have h1 : e * h ≤ 4294967295 * 4294967295 :=
      Nat.mul_le_mul (by unfold U32 at he32; omega) (by unfold U32 at hU; omega)
    unfold U64
    omega
  have htemp0 : u64sub (e % U32 * (h % U32)) (off % U32) = e * h - off := by
    unfold u64sub
    rw [Nat.mod_eq_of_lt he32, Nat.mod_eq_of_lt hU, Nat.mod_eq_of_lt hoffU,
        Nat.mod_eq_of_lt hprodU,
        Nat.mod_eq_of_lt (show off < U64 by unfold U64; unfold U32 at hoffU; omega)]
    unfold U64
    unfold U64 at hprodU
    omega
  simp only [calculate_shr]
  rw [htemp0, Nat.mod_eq_of_lt hU]
  have hsimp : v % U64 * ((0 + 1) % U32) = v := by
    have h1 : (0 + 1) % U32 = 1 := by unfold U32; omega
    rw [h1, Nat.mul_one]
    exact Nat.mod_eq_of_lt hv64
  rw [hsimp]
  unfold u64sub
  rw [Nat.mod_eq_of_lt hv64,
      Nat.mod_eq_of_lt (lt_of_le_of_lt htv hv64)]
  have hfin : ∀ q, q ≤ v → (v + U64 - q) % U64 = v - q := by
    intro q hq
    unfold U64
    unfold U64 at hv64
    omega
  rw [hfin _ htv]
  exact Nat.mod_eq_of_lt (lt_of_le_of_lt (Nat.sub_le v _) hv)

/-- C3: for a valid triple — hPeriod positive (and within `do_div`'s 32-bit
divisor width), integrationOffset < hPeriod, the shutter offset inside the
legal range (at least 4 below vPeriod, as enforced by
`calculate_min_max_v4l2_cid_exposure`) and vPeriod within the 32-bit `VMAX`
field — converting the shutter offset to an exposure with
`calculate_v4l2_cid_exposure` and back with `calculate_shr` differs from the
original by at most one count, the truncation error of the two integer
divisions. -/
theorem C3_round_trip (h v s off : Nat) (hh : 0 < h) (hU : h < U32)
    (hoff : off < h) (hs : s + 4 ≤ v) (hv : v < U32) :
    s ≤ calculate_shr (calculate_v4l2_cid_exposure h v s 0 off) h v 0 off ∧
    calculate_shr (calculate_v4l2_cid_exposure h v s 0 off) h v 0 off ≤ s + 1 := by
  rw [exposure_exact h v s off hh hU hoff (by omega) hv]
  have hoffle : off ≤ (v - s) * h := by
    calc off ≤ h := le_of_lt hoff
    _ = 1 * h := (Nat.one_mul h).symm
    _ ≤ (v - s) * h := Nat.mul_le_mul_right h (by omega)
  have htemp_le : ((v - s) * h - off) / h ≤ v - s := by
    have h1 : ((v - s) * h - off) / h ≤ (v - s) * h / h :=
      Nat.div_le_div_right (Nat.sub_le _ _)
    rwa [Nat.mul_div_cancel _ hh] at h1
  have htemp_ge : v - s - 1 ≤ ((v - s) * h - off) / h := by
    rw [Nat.le_div_iff_mul_le hh]
    have h2 : (v - s - 1) * h + h = (v - s) * h := by
      have h3 : (v - s - 1) + 1 = v - s := by omega
      calc (v - s - 1) * h + h = ((v - s - 1) + 1) * h := by ring
      _ = (v - s) * h := by rw [h3]
    omega
  rw [shr_formula (v - s) h v off hh hU
      (lt_of_le_of_lt (Nat.sub_le v s) hv) (lt_trans hoff hU) hoffle hv
      (le_trans htemp_le (Nat.sub_le v s))]
  omega

/-- C3 witness: the theorem applied at hPeriod = 1200, vPeriod = 2500,
shutterOffset = 100, integrationOffset = 256 (the round trip returns 101). -/
theorem C3_witness :
    100 ≤ calculate_shr (calculate_v4l2_cid_exposure 1200 2500 100 0 256)
        1200 2500 0 256 ∧
    calculate_shr (calculate_v4l2_cid_exposure 1200 2500 100 0 256)
        1200 2500 0 256 ≤ 100 + 1 :=
  C3_round_trip 1200 2500 100 256 (by decide) (by decide) (by decide)
    (by decide) (by decide)

end Imx294

namespace Imx294

/-- Publishing a degenerate range `[p, p]` through
`__v4l2_ctrl_modify_range` forces the control's value to `p`, whatever it
was before. -/
theorem modify_range_point (c : V4l2Ctrl) (p : Nat) :
    (v4l2_ctrl_modify_range c p p p).val = p := by
  unfold v4l2_ctrl_modify_range
  rw [if_pos ⟨le_refl p, le_refl p, le_refl p⟩]
  exact Nat.max_eq_left (Nat.min_le_right c.val p)

/-- C4 counterexample: for the first catalog mode (width 4144,
minimum horizontal period 1122) `imx294_set_framing_limits` publishes a
pixel rate of 531850267 — computed with an extra factor of 2 — while the
claim's formula `width * 72000000 / minHPeriod` gives 265925133.  The
control value shown is for the pixel-rate control as `imx294_init_controls`
registered it (value/range/default all 0xffff). -/
theorem C4_counterexample :
    imx294_set_framing_limits_pixel_rate mode0 = 531850267 ∧
    (imx294_set_framing_limits_publish mode0
        ⟨0xffff, 0xffff, 0xffff, 0xffff⟩).val = 531850267 ∧
    mode0.width * 72000000 / mode0.min_HMAX = 265925133 ∧
    (531850267 : Nat) ≠ 265925133 := by
  refine ⟨by decide, by decide, by decide, by decide⟩

/-- C4 (amended): for every catalog mode, the read-only pixelRate value
published when that mode becomes active equals
`mode.width * 72000000 * 2 / mode.minHPeriod` — twice the claimed formula —
independently of the pixel-rate control's previous contents. -/
theorem C4_amended (m : Imx294Mode) (c : V4l2Ctrl)
    (hm : m ∈ supported_modes_12bit) :
    (imx294_set_framing_limits_publish m c).val =
      m.width * 72000000 * 2 / m.min_HMAX ∧
    imx294_set_framing_limits_pixel_rate m =
      m.width * 72000000 * 2 / m.min_HMAX := by
  have hpr : imx294_set_framing_limits_pixel_rate m =
      m.width * 72000000 * 2 / m.min_HMAX := by
    fin_cases hm <;> decide
  refine ⟨?_, hpr⟩
  unfold imx294_set_framing_limits_publish
  rw [modify_range_point, hpr]

/-- C4 witness: the amended theorem applied to the first catalog mode and
the freshly registered pixel-rate control. -/
theorem C4_witness :
    (imx294_set_framing_limits_publish mode0
        ⟨0xffff, 0xffff, 0xffff, 0xffff⟩).val =
      mode0.width * 72000000 * 2 / mode0.min_HMAX ∧
    imx294_set_framing_limits_pixel_rate mode0 =
      mode0.width * 72000000 * 2 / mode0.min_HMAX :=
  C4_amended mode0 ⟨0xffff, 0xffff, 0xffff, 0xffff⟩ (by decide)

end Imx294

namespace Imx294

/-- The vertical period derived from a vertical-blank value never exceeds
the `VMAX` counter ceiling while the blank value is inside the control's
legal range (whose upper limit `imx294_set_framing_limits` sets to
`IMX294_VMAX_MAX * VMAX_scale - height`). -/
theorem vblank_quotient_le (m : Imx294Mode) (x : Nat) (h1 : 0 < m.VMAX_scale)
    (h3 : m.height + x ≤ IMX294_VMAX_MAX * m.VMAX_scale) :
    (m.height + x) / m.VMAX_scale ≤ IMX294_VMAX_MAX := by
  have hd : (m.height + x) / m.VMAX_scale ≤
      IMX294_VMAX_MAX * m.VMAX_scale / m.VMAX_scale := Nat.div_le_div_right h3
  rwa [Nat.mul_div_cancel _ h1] at hd

/-- The `uint32_t` store and `do_div` reductions inside `vblank_new_vmax`
are the identity in the control's legal range: the stored vertical period
is exactly `(height + vblank) / VMAX_scale`. -/
theorem vblank_new_vmax_eq (m : Imx294Mode) (x : Nat) (h1 : 0 < m.VMAX_scale)
    (h2 : m.VMAX_scale < U32)
    (h3 : m.height + x ≤ IMX294_VMAX_MAX * m.VMAX_scale) :
    vblank_new_vmax m x = (m.height + x) / m.VMAX_scale := by
  have hb : IMX294_VMAX_MAX * m.VMAX_scale ≤ IMX294_VMAX_MAX * (U32 - 1) :=
    Nat.mul_le_mul_left IMX294_VMAX_MAX (Nat.le_pred_of_lt h2)
  have hc : IMX294_VMAX_MAX * (U32 - 1) < U64 := by decide
  have hsum : m.height + x < U64 := lt_of_le_of_lt (le_trans h3 hb) hc
  unfold vblank_new_vmax
  rw [Nat.mod_eq_of_lt hsum, Nat.mod_eq_of_lt h2]
  exact Nat.mod_eq_of_lt
    (lt_of_le_of_lt (vblank_quotient_le m x h1 h3) (by decide))

/-- C5: in the control's legal range, `imx294_set_ctrl` with
`V4L2_CID_VBLANK` stores exactly `floor((mode.height + x) / mode.VMAX_scale)`
into the vertical-period field, powered or not; in particular for the
default mode (height 2184, scale 2) a vertical blank of 2816 yields a
vertical period of 2500. -/
theorem C5_vblank_vmax (st : Imx294State) (x uninit : Nat) (powered : Bool)
    (h1 : 0 < st.mode.VMAX_scale) (h2 : st.mode.VMAX_scale < U32)
    (h3 : st.mode.height + x ≤ IMX294_VMAX_MAX * st.mode.VMAX_scale) :
    (imx294_set_ctrl st CtrlId.vblank x uninit powered).st.VMAX =
      (st.mode.height + x) / st.mode.VMAX_scale ∧
    (imx294_set_ctrl init_state CtrlId.vblank 2816 uninit powered).st.VMAX
      = 2500 := by
  have hv := vblank_new_vmax_eq st.mode x h1 h2 h3
  constructor
  · cases powered <;> exact hv
  · cases powered <;> rfl

/-- C5 witness: the theorem applied to the probe-time state and the default
vertical blank 2816 of the first catalog mode. -/
theorem C5_witness :
    (imx294_set_ctrl init_state CtrlId.vblank 2816 0 false).st.VMAX =
      (init_state.mode.height + 2816) / init_state.mode.VMAX_scale ∧
    (imx294_set_ctrl init_state CtrlId.vblank 2816 0 false).st.VMAX = 2500 :=
  C5_vblank_vmax init_state 2816 0 false (by decide) (by decide) (by decide)

end Imx294

namespace Imx294

/-- The quotient bound transported through `vblank_new_vmax_eq`. -/
theorem vblank_new_vmax_le (m : Imx294Mode) (x : Nat) (h1 : 0 < m.VMAX_scale)
    (h2 : m.VMAX_scale < U32)
    (h3 : m.height + x ≤ IMX294_VMAX_MAX * m.VMAX_scale) :
    vblank_new_vmax m x ≤ IMX294_VMAX_MAX := by
  rw [vblank_new_vmax_eq m x h1 h2 h3]
  exact vblank_quotient_le m x h1 h3

/-- The margin each blanking-compensation register carries:
`verticalPeriod - mode.min_VMAX`. -/
def vblank_margin (m : Imx294Mode) (x : Nat) : Nat :=
  (m.height + x) / m.VMAX_scale - m.min_VMAX

/-- C6 counterexample: at the probe-time state with the default vertical
blank 2816, the powered VBLANK handler emits the 3-byte vertical-period
write followed by **five** 2-byte blanking-compensation writes (PSSLVS1,
PSSLVS2, PSSLVS3, PSSLVS4, PSSLVS0), not four as claimed. -/
theorem C6_counterexample :
    ((imx294_set_ctrl init_state CtrlId.vblank 2816 0 true).writes.map
        (fun w => w.address)) =
      [IMX294_REG_VMAX, IMX294_REG_PSSLVS1, IMX294_REG_PSSLVS2,
       IMX294_REG_PSSLVS3, IMX294_REG_PSSLVS4, IMX294_REG_PSSLVS0] ∧
    ((imx294_set_ctrl init_state CtrlId.vblank 2816 0 true).writes.filter
        (fun w => w.address ≠ IMX294_REG_VMAX)).length = 5 ∧
    (5 : Nat) ≠ 4 := by
  refine ⟨by decide, by decide, by decide⟩

/-- C6 (amended): while powered, the VBLANK handler writes the 3-byte
vertical-period register and exactly **five** dependent
blanking-compensation registers, each derived from the margin
`verticalPeriod - mode.min_VMAX`; exactly one of the five (PSSLVS4) is
written as zero when that margin is ≤ 5 (and as margin - 5 otherwise),
while the other four are written with the margin itself (transmitted as
their low 16 bits, the width of those registers). -/
theorem C6_amended (st : Imx294State) (x uninit : Nat)
    (h1 : 0 < st.mode.VMAX_scale) (h2 : st.mode.VMAX_scale < U32)
    (h3 : st.mode.height + x ≤ IMX294_VMAX_MAX * st.mode.VMAX_scale)
    (h4 : st.mode.min_VMAX ≤ (st.mode.height + x) / st.mode.VMAX_scale) :
    (imx294_set_ctrl st CtrlId.vblank x uninit true).writes =
      [⟨IMX294_REG_VMAX, 3, (st.mode.height + x) / st.mode.VMAX_scale % U24⟩,
       ⟨IMX294_REG_PSSLVS1, 2, vblank_margin st.mode x % U16⟩,
       ⟨IMX294_REG_PSSLVS2, 2, vblank_margin st.mode x % U16⟩,
       ⟨IMX294_REG_PSSLVS3, 2, vblank_margin st.mode x % U16⟩,
       ⟨IMX294_REG_PSSLVS4, 2, if vblank_margin st.mode x ≤ 5 then 0
         else (vblank_margin st.mode x - 5) % U16⟩,
       ⟨IMX294_REG_PSSLVS0, 2, vblank_margin st.mode x % U16⟩] := by
  have hv := vblank_new_vmax_eq st.mode x h1 h2 h3
  have hq := vblank_quotient_le st.mode x h1 h3
  have hm : u64sub (vblank_new_vmax st.mode x) st.mode.min_VMAX =
      vblank_margin st.mode x := by
    rw [hv]
    unfold u64sub vblank_margin
    rw [Nat.mod_eq_of_lt
        (lt_of_le_of_lt hq (by decide : IMX294_VMAX_MAX < U64)),
        Nat.mod_eq_of_lt (lt_of_le_of_lt (le_trans h4 hq)
          (by decide : IMX294_VMAX_MAX < U64))]
    unfold U64
    unfold IMX294_VMAX_MAX at hq
    omega
  show vblank_reg_writes (vblank_new_vmax st.mode x) st.mode.min_VMAX = _
  unfold vblank_reg_writes
  rw [hm, hv]

/-- C6 witness: the amended theorem applied to the probe-time state and the
default vertical blank 2816 (margin 1389, PSSLVS4 value 1384). -/
theorem C6_witness :
    (imx294_set_ctrl init_state CtrlId.vblank 2816 0 true).writes =
      [⟨IMX294_REG_VMAX, 3,
         (init_state.mode.height + 2816) / init_state.mode.VMAX_scale % U24⟩,
       ⟨IMX294_REG_PSSLVS1, 2, vblank_margin init_state.mode 2816 % U16⟩,
       ⟨IMX294_REG_PSSLVS2, 2, vblank_margin init_state.mode 2816 % U16⟩,
       ⟨IMX294_REG_PSSLVS3, 2, vblank_margin init_state.mode 2816 % U16⟩,
       ⟨IMX294_REG_PSSLVS4, 2, if vblank_margin init_state.mode 2816 ≤ 5
         then 0 else (vblank_margin init_state.mode 2816 - 5) % U16⟩,
       ⟨IMX294_REG_PSSLVS0, 2, vblank_margin init_state.mode 2816 % U16⟩] :=
  C6_amended init_state 2816 0 (by decide) (by decide) (by decide) (by decide)

end Imx294

namespace Imx294

theorem calculate_min_max_fst_lt_U32 (h v s svr off : Nat) :
    (calculate_min_max_v4l2_cid_exposure h v s svr off).1 < U32 :=
  calculate_v4l2_cid_exposure_lt_U32 _ _ _ _ _

theorem calculate_min_max_snd_lt_U32 (h v s svr off : Nat) :
    (calculate_min_max_v4l2_cid_exposure h v s svr off).2 < U32 :=
  calculate_v4l2_cid_exposure_lt_U32 _ _ _ _ _

/-- When the range is sane and the new default is inside it,
`__v4l2_ctrl_modify_range` installs the range and clamps the control's
current value into it. -/
theorem modify_range_clamps (c : V4l2Ctrl) (lo hi de : Nat) (h1 : lo ≤ hi)
    (h2 : lo ≤ de) (h3 : de ≤ hi) :
    v4l2_ctrl_modify_range c lo hi de =
      { val := max lo (min c.val hi), minimum := lo, maximum := hi,
        default_value := de } := by
  unfold v4l2_ctrl_modify_range
  rw [if_pos ⟨h1, h2, h3⟩]

/-- C7: every `V4L2_CID_VBLANK` call — powered or unpowered — recomputes
the exposure bounds for the new vertical period and re-ranges the exposure
control so that its resulting value is the previously set exposure value
clamped into the new `[minExposure, maxExposure]` (whenever those bounds
are ordered); the result does not depend on the power state or on the
uninitialized `current_exposure` local, and the unpowered call issues no
register writes — only the register I/O is deferred. -/
theorem C7_vblank_reranges_exposure (st : Imx294State) (x uninit : Nat)
    (powered : Bool)
    (hmm : (vblank_new_bounds st x).1 ≤ (vblank_new_bounds st x).2) :
    (imx294_set_ctrl st CtrlId.vblank x uninit powered).st.exposure.val =
      max (vblank_new_bounds st x).1
        (min st.exposure.val (vblank_new_bounds st x).2) ∧
    (imx294_set_ctrl st CtrlId.vblank x uninit powered).st.exposure.minimum =
      (vblank_new_bounds st x).1 ∧
    (imx294_set_ctrl st CtrlId.vblank x uninit powered).st.exposure.maximum =
      (vblank_new_bounds st x).2 ∧
    (imx294_set_ctrl st CtrlId.vblank x uninit false).writes = [] := by
  have hlt1 : (vblank_new_bounds st x).1 < U32 :=
    calculate_min_max_fst_lt_U32 _ _ _ _ _
  have hlt2 : (vblank_new_bounds st x).2 < U32 :=
    calculate_min_max_snd_lt_U32 _ _ _ _ _
  have hde1 : (vblank_new_bounds st x).1 ≤
      min (max (uninit % U32) ((vblank_new_bounds st x).1 % U32))
        ((vblank_new_bounds st x).2 % U32) := by
    rw [Nat.mod_eq_of_lt hlt1, Nat.mod_eq_of_lt hlt2]
    exact le_min (le_max_right _ _) hmm
  have hde2 : min (max (uninit % U32) ((vblank_new_bounds st x).1 % U32))
      ((vblank_new_bounds st x).2 % U32) ≤ (vblank_new_bounds st x).2 := by
    rw [Nat.mod_eq_of_lt hlt2]
    exact min_le_right _ _
  have key : (vblank_update st x uninit).exposure =
      { val := max (vblank_new_bounds st x).1
          (min st.exposure.val (vblank_new_bounds st x).2),
        minimum := (vblank_new_bounds st x).1,
        maximum := (vblank_new_bounds st x).2,
        default_value := min (max (uninit % U32)
          ((vblank_new_bounds st x).1 % U32))
          ((vblank_new_bounds st x).2 % U32) } := by
    show v4l2_ctrl_modify_range st.exposure (vblank_new_bounds st x).1
        (vblank_new_bounds st x).2
        (min (max (uninit % U32) ((vblank_new_bounds st x).1 % U32))
          ((vblank_new_bounds st x).2 % U32)) = _
    exact modify_range_clamps _ _ _ _ hmm hde1 hde2
  refine ⟨?_, ?_, ?_, rfl⟩
  · cases powered <;>
      exact congrArg V4l2Ctrl.val key
  · cases powered <;>
      exact congrArg V4l2Ctrl.minimum key
  · cases powered <;>
      exact congrArg V4l2Ctrl.maximum key

/-- C7 witness: the theorem applied to the probe-time state (previous
exposure value 1000), vertical blank 2816 and an arbitrary garbage value
123456789 for the uninitialized local, while unpowered: the new bounds are
[4, 2495] and the resulting exposure value is 1000 (already inside). -/
theorem C7_witness :
    (imx294_set_ctrl init_state CtrlId.vblank 2816 123456789 false).st.exposure.val =
      max (vblank_new_bounds init_state 2816).1
        (min init_state.exposure.val (vblank_new_bounds init_state 2816).2) ∧
    (imx294_set_ctrl init_state CtrlId.vblank 2816 123456789 false).st.exposure.minimum =
      (vblank_new_bounds init_state 2816).1 ∧
    (imx294_set_ctrl init_state CtrlId.vblank 2816 123456789 false).st.exposure.maximum =
      (vblank_new_bounds init_state 2816).2 ∧
    (imx294_set_ctrl init_state CtrlId.vblank 2816 123456789 false).writes = [] :=
  C7_vblank_reranges_exposure init_state 2816 123456789 false (by decide)

end Imx294

namespace Imx294

/-- C8 counterexample: with the probe-time state (stored horizontal period
1200), an unpowered horizontal-blank call leaves the stored horizontal
period at 1200, while the same call made powered stores 1149 — the
unpowered call does **not** update the in-memory state as a powered call
would (it does return success with no register I/O). -/
theorem C8_counterexample :
    (imx294_set_ctrl init_state CtrlId.hblank 100 0 false).ret = 0 ∧
    (imx294_set_ctrl init_state CtrlId.hblank 100 0 false).writes = [] ∧
    (imx294_set_ctrl init_state CtrlId.hblank 100 0 false).st.HMAX = 1200 ∧
    (imx294_set_ctrl init_state CtrlId.hblank 100 0 true).st.HMAX = 1149 ∧
    (1200 : Nat) ≠ 1149 := by
  refine ⟨by decide, by decide, by decide, by decide, by decide⟩

/-- C8 (amended): for each of the four settable controls, an unpowered set
call returns success without any register I/O; the vertical-blank call
updates the stored vertical period exactly as a powered call would, but the
stored horizontal period is never updated while unpowered (only the powered
horizontal-blank arm assigns it — the replay at stream-on brings it up to
date). -/
theorem C8_amended (st : Imx294State) (id : CtrlId) (val uninit : Nat) :
    (imx294_set_ctrl st id val uninit false).ret = 0 ∧
    (imx294_set_ctrl st id val uninit false).writes = [] ∧
    (imx294_set_ctrl st id val uninit false).st.HMAX = st.HMAX ∧
    (imx294_set_ctrl st id val uninit false).st.VMAX =
      (imx294_set_ctrl st id val uninit true).st.VMAX := by
  cases id <;> exact ⟨rfl, rfl, rfl, rfl⟩

/-- C9: `imx294_identify_module` propagates a transport error, but after a
successful read it returns success **for every identity value** — here it
accepts the value 0x57 even though the expected chip id is 0x0000, so a
chip-identity mismatch never fails the probe. -/
theorem C9_identify_accepts_any_id :
    imx294_identify_module (Except.ok 0x57) IMX294_CHIP_ID = Except.ok () ∧
    (0x57 : Nat) ≠ IMX294_CHIP_ID :=
  ⟨rfl, by decide⟩

/-- C10: for a media-bus code absent from the supported-codes table (for
example 0x3007), the search loop of `imx294_get_format_code` terminates
with index `codes.length` = 4 and the subsequent `codes[i]` access is one
past the end of the four-entry array — out of bounds (`none` in this
embedding) — while a supported code is returned unchanged. -/
theorem C10_format_code_oob :
    codes.findIdx (fun c => c = 0x3007) = codes.length ∧
    codes.length = 4 ∧
    imx294_get_format_code 0x3007 = none ∧
    imx294_get_format_code MEDIA_BUS_FMT_SGBRG12_1X12 =
      some MEDIA_BUS_FMT_SGBRG12_1X12 := by
  refine ⟨by decide, by decide, by decide, by decide⟩

end Imx294
